import Mathlib

/-!
Verification of the Genesys power-supply protocol client.

The Python class `Genesys` talks to TDK-Lambda Genesys supplies over a shared
serial bus.  We embed the protocol and addressing layer shallowly: the
class-level `listening_addresses` dictionary, the frames written to the port,
the queue of device reply lines still to be read, and the
`last_command`/`last_response` fields are threaded through explicitly as a
`WState`.  Python exceptions become `Except GenErr`; the global dictionary
survives an exception, so every stateful operation returns the final state
alongside the `Except` value.  Machine floats are embedded as rationals.
-/

namespace Genesys

/-- Error kinds the Python code raises: `AssertionError` from `assert`
statements, `TypeError`, `ValueError` and `IndexError`. -/
inductive GenErr
  | assertionError
  | typeError (msg : String)
  | valueError (msg : String)
  | indexError
  deriving DecidableEq

/-- From the source: `BAUD_RATES = (1200, 2400, 4800, 9600, 19200)`. -/
def BAUD_RATES : List Nat := [1200, 2400, 4800, 9600, 19200]

/-- World state threaded through the command layer: the class-level
`Genesys.listening_addresses` dictionary (port name to listening address, the
head entry shadowing older ones), the frames written to the port so far, the
device reply lines not yet consumed by a read (an exhausted queue models a
read timeout), the `time.sleep` delays performed so far in milliseconds, and
the `last_command` and `last_response` instance fields. -/
structure WState where
  registry : List (String × Nat)
  writes : List String
  reads : List String
  sleeps : List Nat
  lastCommand : String
  lastResponse : String
  deriving DecidableEq

/-- Dictionary lookup on an association list, first entry wins, embedding
Python `dict` access on `listening_addresses` and on the capability tables. -/
def lookupReg {β : Type} : List (String × β) → String → Option β
  | [], _ => none
  | (k, v) :: rest, p => if k = p then some v else lookupReg rest p

/-- Delete every carriage return, as `response.replace('\r','')` does. -/
def stripCR (s : String) : String :=
  String.mk (s.data.filter (fun c => c != '\r'))

/-- `_read_response`: read one line from the port, decode it and delete every
`'\r'`, record it as `last_response` and return it.  Reading from an
exhausted queue models a timeout, which yields the empty string. -/
def read_response (st : WState) : String × WState :=
  match st.reads with
  | [] => ("", { st with lastResponse := "" })
  | r :: rs => (stripCR r, { st with reads := rs, lastResponse := stripCR r })

/-- The addressing frame built at line 765 of the source:
`'ADR ' ++ str(address) ++ '\r'` with no padding of the address digits. -/
def adrFrame (address : Nat) : String :=
  "ADR " ++ Nat.repr address ++ "\r"

/-- The condition on line 760 of the source:
`(port not in listening_addresses) or (listening_addresses[port] != address)`. -/
def needs_addressing (registry : List (String × Nat)) (port : String)
    (address : Nat) : Bool :=
  match lookupReg registry port with
  | none => true
  | some a => decide (a ≠ address)

/-- `_write_command_read_response`: when the listening-address dictionary has
no entry for this port or records a different address, the code first stores
this address in the dictionary, then writes the `ADR` frame, sleeps 150 ms,
records it as `last_command` and asserts the reply is `"OK"`; afterwards (or
directly, when the stored address already matches) it writes the command,
sleeps 150 ms, records it and returns the reply read.  A failed `assert`
raises `AssertionError`; the dictionary update is not rolled back. -/
def write_command_read_response (port : String) (address : Nat)
    (command : String) (st : WState) : Except GenErr String × WState :=
  let sendCommand : WState → Except GenErr String × WState := fun st1 =>
    let st2 := { st1 with writes := st1.writes ++ [command],
                          sleeps := st1.sleeps ++ [150],
                          lastCommand := command }
    let (resp, st3) := read_response st2
    (Except.ok resp, st3)
  if needs_addressing st.registry port address then
    let stA := { st with registry := (port, address) :: st.registry,
                         writes := st.writes ++ [adrFrame address],
                         sleeps := st.sleeps ++ [150],
                         lastCommand := adrFrame address }
    let (resp, stB) := read_response stA
    if resp = "OK" then sendCommand stB
    else (Except.error GenErr.assertionError, stB)
  else sendCommand st

/-- `command_imperative`: assert the command text does not end in `'?'`
(Python `command[-1]` on an empty string raises `IndexError`), send
`command ++ '\r'`, and assert the reply is exactly `"OK"`. -/
def command_imperative (port : String) (address : Nat) (command : String)
    (st : WState) : Except GenErr Unit × WState :=
  match command.data.getLast? with
  | none => (Except.error GenErr.indexError, st)
  | some c =>
    if c = '?' then (Except.error GenErr.assertionError, st)
    else
      match write_command_read_response port address (command ++ "\r") st with
      | (Except.error e, st') => (Except.error e, st')
      | (Except.ok resp, st') =>
        if resp = "OK" then (Except.ok (), st')
        else (Except.error GenErr.assertionError, st')

/-- `command_interrogative`: assert the command text ends in `'?'`, send
`command ++ '\r'`, assert the reply is not `"OK"`, and return
`last_response`. -/
def command_interrogative (port : String) (address : Nat) (command : String)
    (st : WState) : Except GenErr String × WState :=
  match command.data.getLast? with
  | none => (Except.error GenErr.indexError, st)
  | some c =>
    if c = '?' then
      match write_command_read_response port address (command ++ "\r") st with
      | (Except.error e, st') => (Except.error e, st')
      | (Except.ok resp, st') =>
        if resp = "OK" then (Except.error GenErr.assertionError, st')
        else (Except.ok st'.lastResponse, st')
    else (Except.error GenErr.assertionError, st)

/-- The reply `_read_response` would produce from a reply queue. -/
def respHead (reads : List String) : String :=
  match reads with
  | [] => ""
  | r :: _ => stripCR r

/-- The reply queue left after one `_read_response`. -/
def readsTail (reads : List String) : List String :=
  match reads with
  | [] => []
  | _ :: rs => rs

/-- A frame whose first four characters are `"ADR "`, i.e. an addressing
frame. -/
def isAdrFrame (s : String) : Bool :=
  decide (s.data.take 4 = ("ADR ").data)

/-- How many addressing frames a list of written frames contains. -/
def countAdrFrames (l : List String) : Nat :=
  (l.filter isAdrFrame).length

/-- Round a rational to the nearest integer, ties to even, which is how
Python `format` rounds an exact decimal when rendering with `'.3f'`
(applied here to `1000 * v`). -/
def roundHalfEven (q : ℚ) : ℤ :=
  if q - ⌊q⌋ < 1/2 then ⌊q⌋
  else if 1/2 < q - ⌊q⌋ then ⌊q⌋ + 1
  else if ⌊q⌋ % 2 = 0 then ⌊q⌋ else ⌊q⌋ + 1

/-- Left-pad a fractional part to three digits. -/
def pad3 (n : Nat) : String :=
  if n < 10 then "00" ++ Nat.repr n
  else if n < 100 then "0" ++ Nat.repr n
  else Nat.repr n

/-- From the source: `FORMAT = '.3f'` applied by `FORMAT.format(v)` — render
`v` with exactly three digits after the decimal point, rounding to nearest
(ties to even). -/
def FORMAT (v : ℚ) : String :=
  if roundHalfEven (1000 * v) < 0 then
    "-" ++ Nat.repr ((- roundHalfEven (1000 * v)).toNat / 1000) ++ "."
        ++ pad3 ((- roundHalfEven (1000 * v)).toNat % 1000)
  else
    Nat.repr ((roundHalfEven (1000 * v)).toNat / 1000) ++ "."
        ++ pad3 ((roundHalfEven (1000 * v)).toNat % 1000)

/-- The rational value the three-decimal wire string `FORMAT v` denotes,
i.e. the value parsing the formatted string back yields. -/
def round3 (v : ℚ) : ℚ :=
  (roundHalfEven (1000 * v) : ℚ) / 1000

/-- `'0>6.3f'` used by the group programming commands: the `FORMAT`
rendering left-padded with `'0'` to a width of at least six characters. -/
def FORMAT06 (v : ℚ) : String :=
  if (FORMAT v).length < 6 then
    String.mk (List.replicate (6 - (FORMAT v).length) '0') ++ FORMAT v
  else FORMAT v

/-- `program_voltage`, embedded at the level of its validation logic.
`VOLmin`/`VOLMAX` are the session's `self.VOL` envelope; `uvl_now` and
`ovp_now` are the values the live `UVL?` and `OVP?` interrogative reads
return at call time (the code reads them from the device immediately before
the presently-valid check).  The result is the `PV` frame subsequently
written, or the `ValueError` raised before anything is programmed. -/
def program_voltage (VOLmin VOLMAX uvl_now ovp_now volts : ℚ) :
    Except GenErr String :=
  if ¬ (VOLmin ≤ volts ∧ volts ≤ VOLMAX) then
    Except.error (GenErr.valueError "Invalid Voltage, must *always* be in range")
  else if ¬ (uvl_now / 0.95 ≤ volts ∧ volts ≤ ovp_now / 1.05) then
    Except.error (GenErr.valueError "Invalid Voltage, must *presently* be in range")
  else
    Except.ok ("PV " ++ FORMAT volts)

/-- Per-family over-voltage-protection bounds. -/
structure Bounds where
  min : ℚ
  MAX : ℚ
  deriving DecidableEq

/-- From the source, Genesys Manual Table 7.6: `OVPs`. -/
def OVPs : List (String × Bounds) :=
  [("GEN6-XY", ⟨0.500, 7.500⟩),
   ("GEN8-XY", ⟨0.500, 10.000⟩),
   ("GEN12.5-XY", ⟨1.000, 15.000⟩),
   ("GEN20-XY", ⟨1.000, 24.000⟩),
   ("GEN30-XY", ⟨2.000, 36.000⟩),
   ("GEN40-XY", ⟨2.000, 44.000⟩),
   ("GEN60-XY", ⟨5.000, 66.000⟩),
   ("GEN80-XY", ⟨5.000, 88.000⟩),
   ("GEN100-XY", ⟨5.000, 110.000⟩),
   ("GEN150-XY", ⟨5.000, 165.000⟩),
   ("GEN300-XY", ⟨5.000, 330.000⟩),
   ("GEN600-XY", ⟨5.000, 660.000⟩)]

/-- From the source, Genesys Manual Table 7.7: `UVLs`. -/
def UVLs : List (String × Bounds) :=
  [("GEN6-XY", ⟨0.000, 5.700⟩),
   ("GEN8-XY", ⟨0.000, 7.600⟩),
   ("GEN12.5-XY", ⟨0.000, 11.900⟩),
   ("GEN20-XY", ⟨0.000, 19.000⟩),
   ("GEN30-XY", ⟨0.000, 28.500⟩),
   ("GEN40-XY", ⟨0.000, 38.000⟩),
   ("GEN60-XY", ⟨0.000, 57.000⟩),
   ("GEN80-XY", ⟨0.000, 76.000⟩),
   ("GEN100-XY", ⟨0.000, 95.000⟩),
   ("GEN150-XY", ⟨0.000, 142.000⟩),
   ("GEN300-XY", ⟨0.000, 285.000⟩),
   ("GEN600-XY", ⟨0.000, 570.000⟩)]

/-- The voltage class `Voltage.MAX` encoded in each family key: `__init__`
derives `self.VOL.MAX = float(v)` from the identity string and keys the
tables by `'GEN' ++ v ++ '-XY'` (source lines 84-90). -/
def volMAXes : List (String × ℚ) :=
  [("GEN6-XY", 6), ("GEN8-XY", 8), ("GEN12.5-XY", 12.5), ("GEN20-XY", 20),
   ("GEN30-XY", 30), ("GEN40-XY", 40), ("GEN60-XY", 60), ("GEN80-XY", 80),
   ("GEN100-XY", 100), ("GEN150-XY", 150), ("GEN300-XY", 300),
   ("GEN600-XY", 600)]

/-- The per-family bound relations that actually hold in the static tables:
`0 ≤ UVL.min ≤ UVL.MAX < OVP.MAX`, `UVL.min < OVP.min ≤ OVP.MAX`, and
`UVL.MAX` within `0.5` of `0.95 × Voltage.MAX` (exact for most families). -/
def rowRelated (u o : Bounds) (v : ℚ) : Prop :=
  0 ≤ u.min ∧ u.min ≤ u.MAX ∧ u.MAX < o.MAX ∧ u.min < o.min ∧ o.min ≤ o.MAX
    ∧ 0.95 * v - 0.5 ≤ u.MAX ∧ u.MAX ≤ 0.95 * v + 0.5

/-- The three capability tables zipped row by row: for each family, its
`UVLs` bounds, its `OVPs` bounds and its voltage class. -/
def familyRows : List (Bounds × Bounds × ℚ) :=
  List.zip (UVLs.map Prod.snd)
    (List.zip (OVPs.map Prod.snd) (volMAXes.map Prod.snd))

/-- `validate_address`: address must lie in `range(0, 31)`. -/
def validate_address (address : Nat) : Except GenErr Unit :=
  if address ≤ 30 then Except.ok ()
  else Except.error (GenErr.valueError "Invalid Address")

/-- `_fast_query`: validate the address, set the port timeout to `0`, write
the two query bytes, sleep 30 ms, `read_until('\r', expected_bytes)`, and
restore the timeout.  pySerial's `read_until` returns the — possibly
empty — bytes read before the timeout and never returns `None`; the Python
value is therefore embedded as an `Option (List Nat)` that is always
`some bytesRead`. -/
def fast_query (address : Nat) (bytesRead : List Nat) :
    Except GenErr (Option (List Nat)) :=
  match validate_address address with
  | Except.error e => Except.error e
  | Except.ok _ => Except.ok (some bytesRead)

/-- `is_responsive`: `return _fast_query(...) is None`. -/
def is_responsive (address : Nat) (bytesRead : List Nat) :
    Except GenErr Bool :=
  match fast_query address bytesRead with
  | Except.error e => Except.error e
  | Except.ok response => Except.ok response.isNone

/-- `is_multi_drop_enabled`: `if response is None: return False`, then
`return response[0] == 0x31` — indexing an empty bytes object raises
`IndexError`. -/
def is_multi_drop_enabled (address : Nat) (bytesRead : List Nat) :
    Except GenErr Bool :=
  match fast_query address bytesRead with
  | Except.error e => Except.error e
  | Except.ok none => Except.ok false
  | Except.ok (some []) => Except.error GenErr.indexError
  | Except.ok (some (b :: _)) => Except.ok (decide (b = 0x31))

/-- `_group_write_command`: check the baud rate, write the UTF-8 bytes of
the command text itself (no `'\r'` appended), and sleep 200 ms.  Nothing is
read and `listening_addresses` is not touched. -/
def group_write_command (baudrate : Nat) (command : String) (st : WState) :
    Except GenErr Unit × WState :=
  if baudrate ∈ BAUD_RATES then
    (Except.ok (), { st with writes := st.writes ++ [command],
                             sleeps := st.sleeps ++ [200] })
  else
    (Except.error (GenErr.valueError "Invalid Baud Rate"), st)

/-- `group_program_voltage`: format the voltage with `'0>6.3f'` and group
write `'GPV ' ++ volts` (the numeric type check cannot fail on `ℚ`). -/
def group_program_voltage (baudrate : Nat) (volts : ℚ) (st : WState) :
    Except GenErr Unit × WState :=
  group_write_command baudrate ("GPV " ++ FORMAT06 volts) st

lemma read_response_eq (st : WState) :
    read_response st
      = (respHead st.reads,
         { st with reads := readsTail st.reads,
                   lastResponse := respHead st.reads }) := by
  obtain ⟨reg, w, reads, sl, lc, lr⟩ := st
  cases reads <;> rfl

lemma needs_addressing_eq_false (registry : List (String × Nat))
    (port : String) (address : Nat) :
    needs_addressing registry port address = false
      ↔ lookupReg registry port = some address := by
  rw [needs_addressing]
  cases h : lookupReg registry port <;> simp

lemma wcrr_not_needed (port : String) (address : Nat) (command : String)
    (st : WState) (h : needs_addressing st.registry port address = false) :
    write_command_read_response port address command st
      = (Except.ok (respHead st.reads),
         { st with writes := st.writes ++ [command],
                   sleeps := st.sleeps ++ [150],
                   reads := readsTail st.reads,
                   lastCommand := command,
                   lastResponse := respHead st.reads }) := by
  obtain ⟨reg, w, reads, sl, lc, lr⟩ := st
  cases reads <;>
    simp [write_command_read_response, h, read_response, respHead, readsTail]

lemma wcrr_needed_notok (port : String) (address : Nat) (command : String)
    (st : WState) (h : needs_addressing st.registry port address = true)
    (hno : respHead st.reads ≠ "OK") :
    write_command_read_response port address command st
      = (Except.error GenErr.assertionError,
         { st with registry := (port, address) :: st.registry,
                   writes := st.writes ++ [adrFrame address],
                   sleeps := st.sleeps ++ [150],
                   reads := readsTail st.reads,
                   lastCommand := adrFrame address,
                   lastResponse := respHead st.reads }) := by
  obtain ⟨reg, w, reads, sl, lc, lr⟩ := st
  cases reads with
  | nil =>
    simp only [respHead] at hno
    simp [write_command_read_response, h, read_response, respHead, readsTail,
      hno]
  | cons r rs =>
    simp only [respHead] at hno
    simp [write_command_read_response, h, read_response, respHead, readsTail,
      hno]

lemma wcrr_needed_ok (port : String) (address : Nat) (command : String)
    (st : WState) (h : needs_addressing st.registry port address = true)
    (hok : respHead st.reads = "OK") :
    write_command_read_response port address command st
      = (Except.ok (respHead (readsTail st.reads)),
         { st with registry := (port, address) :: st.registry,
                   writes := st.writes ++ [adrFrame address, command],
                   sleeps := st.sleeps ++ [150, 150],
                   reads := readsTail (readsTail st.reads),
                   lastCommand := command,
                   lastResponse := respHead (readsTail st.reads) }) := by
  obtain ⟨reg, w, reads, sl, lc, lr⟩ := st
  cases reads with
  | nil =>
    simp only [respHead] at hok
    exact absurd hok (by decide)
  | cons r rs =>
    simp only [respHead] at hok
    cases rs <;>
      simp [write_command_read_response, h, read_response, respHead, readsTail,
        hok, List.append_assoc]

lemma isAdrFrame_adrFrame (address : Nat) :
    isAdrFrame (adrFrame address) = true := by
  rw [isAdrFrame, adrFrame, decide_eq_true_iff]
  rw [String.data_append, String.data_append, List.append_assoc]
  exact List.take_left' rfl

lemma roundHalfEven_eq_down (q : ℚ) (f : ℤ) (hf : ⌊q⌋ = f) (h : q - f < 1/2) :
    roundHalfEven q = f := by
  rw [roundHalfEven, hf, if_pos h]

lemma roundHalfEven_eq_up (q : ℚ) (f : ℤ) (hf : ⌊q⌋ = f) (h : 1/2 < q - f) :
    roundHalfEven q = f + 1 := by
  rw [roundHalfEven, hf, if_neg (by linarith), if_pos h]

lemma FORMAT_eq_of_nonneg (v : ℚ) (n : ℤ) (h : roundHalfEven (1000 * v) = n)
    (hn : 0 ≤ n) :
    FORMAT v = Nat.repr (n.toNat / 1000) ++ "." ++ pad3 (n.toNat % 1000) := by
  rw [FORMAT, h, if_neg (by omega)]

lemma roundHalfEven_sub_le (q : ℚ) : |(roundHalfEven q : ℚ) - q| ≤ 1/2 := by
  have h0 : (⌊q⌋ : ℚ) ≤ q := Int.floor_le q
  have h1 : q < ⌊q⌋ + 1 := Int.lt_floor_add_one q
  rw [roundHalfEven]
  by_cases hc1 : q - ⌊q⌋ < 1/2
  · rw [if_pos hc1, abs_le]
    constructor <;> linarith
  · rw [if_neg hc1]
    have hc1' : 1/2 ≤ q - ⌊q⌋ := not_lt.mp hc1
    by_cases hc2 : 1/2 < q - ⌊q⌋
    · rw [if_pos hc2, abs_le]
      constructor <;> push_cast <;> linarith
    · rw [if_neg hc2]
      have hc2' : q - ⌊q⌋ ≤ 1/2 := not_lt.mp hc2
      by_cases hp : ⌊q⌋ % 2 = 0
      · rw [if_pos hp, abs_le]
        constructor <;> linarith
      · rw [if_neg hp, abs_le]
        constructor <;> push_cast <;> linarith

lemma round3_close (v : ℚ) : |round3 v - v| ≤ 1/2000 := by
  have h := roundHalfEven_sub_le (1000 * v)
  rw [round3]
  have he : (roundHalfEven (1000 * v) : ℚ) / 1000 - v
      = ((roundHalfEven (1000 * v) : ℚ) - 1000 * v) / 1000 := by ring
  rw [he, abs_div, abs_of_pos (by norm_num : (0:ℚ) < 1000),
    div_le_iff₀ (by norm_num : (0:ℚ) < 1000)]
  linarith

lemma command_imperative_fst (port : String) (address : Nat) (ci : String)
    (st : WState) (r : String) (c : Char)
    (hlook : lookupReg st.registry port = some address)
    (hreads : st.reads = [r])
    (hci : ci.data.getLast? = some c) (hlci : c ≠ '?') :
    (command_imperative port address ci st).1
      = if stripCR r = "OK" then Except.ok ()
        else Except.error GenErr.assertionError := by
  have hn : needs_addressing st.registry port address = false :=
    (needs_addressing_eq_false _ _ _).mpr hlook
  have hw := wcrr_not_needed port address (ci ++ "\r") st hn
  rw [command_imperative, hci]
  simp only [hw, hreads, respHead]
  rw [if_neg hlci]
  by_cases hok : stripCR r = "OK" <;> simp [hok]

lemma command_interrogative_fst (port : String) (address : Nat) (cq : String)
    (st : WState) (r : String)
    (hlook : lookupReg st.registry port = some address)
    (hreads : st.reads = [r])
    (hcq : cq.data.getLast? = some '?') :
    (command_interrogative port address cq st).1
      = if stripCR r = "OK" then Except.error GenErr.assertionError
        else Except.ok (stripCR r) := by
  have hn : needs_addressing st.registry port address = false :=
    (needs_addressing_eq_false _ _ _).mpr hlook
  have hw := wcrr_not_needed port address (cq ++ "\r") st hn
  rw [command_interrogative, hcq]
  simp only [hw, hreads, respHead]
  by_cases hok : stripCR r = "OK" <;> simp [hok]

/-- C1: a command issued while the registry records a different listening
address for the transport (or none) emits exactly one addressing frame
before the command; a command issued while the recorded address already
equals the session's address emits zero addressing frames. -/
theorem claim_C1_addressing_frame_count (st : WState) (port : String)
    (address : Nat) (command : String) (h : isAdrFrame command = false) :
    countAdrFrames
        (((write_command_read_response port address command st).2.writes).drop
          st.writes.length)
      = if lookupReg st.registry port = some address then 0 else 1 := by
  by_cases hn : needs_addressing st.registry port address = true
  · have hlook : ¬ lookupReg st.registry port = some address := by
      intro hx
      rw [← needs_addressing_eq_false st.registry port address] at hx
      rw [hn] at hx
      exact Bool.noConfusion hx
    rw [if_neg hlook]
    by_cases hok : respHead st.reads = "OK"
    · rw [wcrr_needed_ok port address command st hn hok]
      simp [List.drop_left, countAdrFrames, isAdrFrame_adrFrame, h]
    · rw [wcrr_needed_notok port address command st hn hok]
      simp [List.drop_left, countAdrFrames, isAdrFrame_adrFrame, h]
  · have hn' : needs_addressing st.registry port address = false :=
      Bool.not_eq_true _ ▸ Bool.of_not_eq_true hn
    rw [if_pos ((needs_addressing_eq_false _ _ _).mp hn'),
      wcrr_not_needed port address command st hn']
    simp [List.drop_left, countAdrFrames, h]

/-- C1 witness: a concrete command to the already-listening address emits
zero addressing frames. -/
theorem claim_C1_witness :
    countAdrFrames
        (((write_command_read_response "COM4" 3 "OUT ON\r"
            ⟨[("COM4", 3)], [], ["OK\r"], [], "", ""⟩).2.writes).drop
          ((⟨[("COM4", 3)], [], ["OK\r"], [], "", ""⟩ : WState)).writes.length)
      = if lookupReg [("COM4", 3)] "COM4" = some 3 then 0 else 1 :=
  claim_C1_addressing_frame_count ⟨[("COM4", 3)], [], ["OK\r"], [], "", ""⟩
    "COM4" 3 "OUT ON\r" (by decide)

/-- C2: with the transport already addressed and one reply queued, an
imperative command (not ending in `'?'`) errors exactly when the stripped
reply differs from `"OK"` and succeeds on `"OK"`; an interrogative command
(ending in `'?'`) errors exactly when the stripped reply equals `"OK"` and
otherwise returns the reply string. -/
theorem claim_C2_command_discipline (st : WState) (port : String)
    (address : Nat) (ci cq : String) (r : String) (c : Char)
    (hlook : lookupReg st.registry port = some address)
    (hreads : st.reads = [r])
    (hci : ci.data.getLast? = some c) (hlci : c ≠ '?')
    (hcq : cq.data.getLast? = some '?') :
    ((command_imperative port address ci st).1
        = Except.error GenErr.assertionError ↔ stripCR r ≠ "OK")
  ∧ (stripCR r = "OK" →
      (command_imperative port address ci st).1 = Except.ok ())
  ∧ ((command_interrogative port address cq st).1
        = Except.error GenErr.assertionError ↔ stripCR r = "OK")
  ∧ (stripCR r ≠ "OK" →
      (command_interrogative port address cq st).1
        = Except.ok (stripCR r)) := by
  have hi := command_imperative_fst port address ci st r c hlook hreads hci hlci
  have hq := command_interrogative_fst port address cq st r hlook hreads hcq
  refine ⟨?_, ?_, ?_, ?_⟩ <;> by_cases hok : stripCR r = "OK" <;>
    simp [hi, hq, hok]

/-- C2 witness: concrete imperative and interrogative commands against the
reply `"LAMBDA,GEN40-38"`. -/
theorem claim_C2_witness :
    ((command_imperative "COM4" 0 "RST"
        ⟨[("COM4", 0)], [], ["LAMBDA,GEN40-38\r"], [], "", ""⟩).1
        = Except.error GenErr.assertionError
      ↔ stripCR "LAMBDA,GEN40-38\r" ≠ "OK")
  ∧ (stripCR "LAMBDA,GEN40-38\r" = "OK" →
      (command_imperative "COM4" 0 "RST"
        ⟨[("COM4", 0)], [], ["LAMBDA,GEN40-38\r"], [], "", ""⟩).1
        = Except.ok ())
  ∧ ((command_interrogative "COM4" 0 "IDN?"
        ⟨[("COM4", 0)], [], ["LAMBDA,GEN40-38\r"], [], "", ""⟩).1
        = Except.error GenErr.assertionError
      ↔ stripCR "LAMBDA,GEN40-38\r" = "OK")
  ∧ (stripCR "LAMBDA,GEN40-38\r" ≠ "OK" →
      (command_interrogative "COM4" 0 "IDN?"
        ⟨[("COM4", 0)], [], ["LAMBDA,GEN40-38\r"], [], "", ""⟩).1
        = Except.ok (stripCR "LAMBDA,GEN40-38\r")) :=
  claim_C2_command_discipline ⟨[("COM4", 0)], [], ["LAMBDA,GEN40-38\r"], [], "", ""⟩
    "COM4" 0 "RST" "IDN?" "LAMBDA,GEN40-38\r" 'T' rfl rfl rfl (by decide) rfl

/-- C3: `program_voltage` raises the always-out-of-range `ValueError` when
the voltage lies outside the session envelope, and the presently-out-of-range
`ValueError` when it lies inside the envelope but outside the live
`[UVL/0.95, OVP/1.05]` window; in particular `41` on envelope `[0,40]` is
always-invalid, and `20` with live OVP `15` is presently-invalid. -/
theorem claim_C3_program_voltage_validation
    (VOLmin VOLMAX uvl_now ovp_now volts : ℚ) :
    (¬ (VOLmin ≤ volts ∧ volts ≤ VOLMAX) →
      program_voltage VOLmin VOLMAX uvl_now ovp_now volts
        = Except.error
            (GenErr.valueError "Invalid Voltage, must *always* be in range"))
  ∧ ((VOLmin ≤ volts ∧ volts ≤ VOLMAX) →
      ¬ (uvl_now / 0.95 ≤ volts ∧ volts ≤ ovp_now / 1.05) →
      program_voltage VOLmin VOLMAX uvl_now ovp_now volts
        = Except.error
            (GenErr.valueError "Invalid Voltage, must *presently* be in range"))
  ∧ program_voltage 0 40 uvl_now ovp_now 41
      = Except.error
          (GenErr.valueError "Invalid Voltage, must *always* be in range")
  ∧ program_voltage 0 40 uvl_now 15 20
      = Except.error
          (GenErr.valueError "Invalid Voltage, must *presently* be in range") := by
  refine ⟨?_, ?_, ?_, ?_⟩
  · intro h1
    rw [program_voltage, if_pos h1]
  · intro h1 h2
    rw [program_voltage, if_neg (not_not_intro h1), if_pos h2]
  · rw [program_voltage, if_pos (by norm_num)]
  · rw [program_voltage, if_neg (not_not_intro (by norm_num)),
      if_pos (fun hc => absurd hc.2 (by norm_num))]

/-- C3 witness: the two scenario inputs from the claim, with live
`UVL = 0` and live `OVP = 15`. -/
theorem claim_C3_witness :
    program_voltage 0 40 0 15 41
      = Except.error
          (GenErr.valueError "Invalid Voltage, must *always* be in range")
  ∧ program_voltage 0 40 0 15 20
      = Except.error
          (GenErr.valueError "Invalid Voltage, must *presently* be in range") :=
  ⟨(claim_C3_program_voltage_validation 0 40 0 15 41).1 (by norm_num),
   (claim_C3_program_voltage_validation 0 40 0 15 20).2.1 (by norm_num)
     (fun hc => absurd hc.2 (by norm_num))⟩

/-- C4 counterexample: with no address recorded for `"COM4"` and the device
replying `"FAIL"` to the addressing frame, the call raises, yet the registry
records the new address `5` — it is not left unchanged on error. -/
theorem claim_C4_counterexample :
    (write_command_read_response "COM4" 5 "RST\r"
        ⟨[], [], ["FAIL\r"], [], "", ""⟩).1 = Except.error GenErr.assertionError
  ∧ lookupReg (write_command_read_response "COM4" 5 "RST\r"
        ⟨[], [], ["FAIL\r"], [], "", ""⟩).2.registry "COM4" = some 5
  ∧ lookupReg ([] : List (String × Nat)) "COM4" = none :=
  ⟨rfl, rfl, rfl⟩

/-- C4 amended: whenever an addressing frame must be emitted, the code first
records the address in the registry, then writes the frame, waits, reads and
requires `"OK"`; on a non-`"OK"` addressing reply it signals the error
without writing the command, but with the registry already recording the new
address; on `"OK"` the command follows the frame. -/
theorem claim_C4_addressing_sequence (port : String) (address : Nat)
    (command : String) (st : WState)
    (hneed : needs_addressing st.registry port address = true) :
    lookupReg (write_command_read_response port address command st).2.registry
        port = some address
  ∧ (((write_command_read_response port address command st).2.writes).drop
        st.writes.length).head? = some (adrFrame address)
  ∧ (respHead st.reads ≠ "OK" →
      (write_command_read_response port address command st).1
          = Except.error GenErr.assertionError
      ∧ (write_command_read_response port address command st).2.writes
          = st.writes ++ [adrFrame address])
  ∧ (respHead st.reads = "OK" →
      (write_command_read_response port address command st).2.writes
        = st.writes ++ [adrFrame address, command]) := by
  by_cases hok : respHead st.reads = "OK"
  · rw [wcrr_needed_ok port address command st hneed hok]
    exact ⟨by simp [lookupReg], by simp [List.drop_left],
      fun hno => absurd hok hno, fun _ => rfl⟩
  · rw [wcrr_needed_notok port address command st hneed hok]
    exact ⟨by simp [lookupReg], by simp [List.drop_left],
      fun _ => ⟨rfl, rfl⟩, fun hk => absurd hk hok⟩

/-- C4 witness: the failing-addressing scenario of the counterexample,
through the amended statement. -/
theorem claim_C4_witness :
    lookupReg (write_command_read_response "COM4" 5 "RST\r"
        ⟨[], [], ["FAIL\r"], [], "", ""⟩).2.registry "COM4" = some 5
  ∧ (((write_command_read_response "COM4" 5 "RST\r"
        ⟨[], [], ["FAIL\r"], [], "", ""⟩).2.writes).drop
        ((⟨[], [], ["FAIL\r"], [], "", ""⟩ : WState)).writes.length).head?
      = some (adrFrame 5)
  ∧ (respHead ((⟨[], [], ["FAIL\r"], [], "", ""⟩ : WState)).reads ≠ "OK" →
      (write_command_read_response "COM4" 5 "RST\r"
          ⟨[], [], ["FAIL\r"], [], "", ""⟩).1
          = Except.error GenErr.assertionError
      ∧ (write_command_read_response "COM4" 5 "RST\r"
          ⟨[], [], ["FAIL\r"], [], "", ""⟩).2.writes
          = ((⟨[], [], ["FAIL\r"], [], "", ""⟩ : WState)).writes
              ++ [adrFrame 5])
  ∧ (respHead ((⟨[], [], ["FAIL\r"], [], "", ""⟩ : WState)).reads = "OK" →
      (write_command_read_response "COM4" 5 "RST\r"
          ⟨[], [], ["FAIL\r"], [], "", ""⟩).2.writes
        = ((⟨[], [], ["FAIL\r"], [], "", ""⟩ : WState)).writes
            ++ [adrFrame 5, "RST\r"]) :=
  claim_C4_addressing_sequence "COM4" 5 "RST\r"
    ⟨[], [], ["FAIL\r"], [], "", ""⟩ (by decide)

/-- C5 counterexample: for family `GEN6-XY` the table values give
`UVL.MAX = 5.7` and `OVP.min = 0.5`, so `UVL.MAX < OVP.min` fails (it fails
for every row of the tables). -/
theorem claim_C5_counterexample :
    lookupReg UVLs "GEN6-XY" = some ⟨0.000, 5.700⟩
  ∧ lookupReg OVPs "GEN6-XY" = some ⟨0.500, 7.500⟩
  ∧ ¬ ((5.700 : ℚ) < 0.500) :=
  ⟨rfl, rfl, by norm_num⟩

/-- C5 amended: the three tables are keyed by the same families in the same
order, and every row satisfies `0 ≤ UVL.min ≤ UVL.MAX < OVP.MAX`,
`UVL.min < OVP.min ≤ OVP.MAX`, and `UVL.MAX` within `0.5` of
`0.95 × Voltage.MAX` (the relation `UVL.MAX < OVP.min` claimed by the spec
holds for no row). -/
theorem claim_C5_table_invariant :
    UVLs.map Prod.fst = OVPs.map Prod.fst
  ∧ UVLs.map Prod.fst = volMAXes.map Prod.fst
  ∧ ∀ i : Fin familyRows.length,
      rowRelated (familyRows.get i).1 (familyRows.get i).2.1
        (familyRows.get i).2.2 := by
  refine ⟨rfl, rfl, ?_⟩
  intro i
  fin_cases i <;>
    norm_num [familyRows, UVLs, OVPs, volMAXes, rowRelated]

/-- C6: `is_responsive` returns `False` for every reply, including a
non-empty one — `response is None` never holds of the bytes value pySerial
returns — contradicting its own documented contract (`True` if the device
responds). -/
theorem claim_C6_is_responsive_constant_false :
    ∀ bytesRead : List Nat, is_responsive 5 bytesRead = Except.ok false :=
  fun _ => rfl

/-- C7: on a fast query yielding zero bytes, `is_multi_drop_enabled` raises
`IndexError` (indexing the empty bytes reply) instead of returning `False`;
when bytes are present it does test the first byte against `0x31`. -/
theorem claim_C7_is_multi_drop_empty_raises :
    is_multi_drop_enabled 5 [] = Except.error GenErr.indexError
  ∧ is_multi_drop_enabled 5 [0x31, 0x24] = Except.ok true
  ∧ is_multi_drop_enabled 5 [0x30] = Except.ok false :=
  ⟨rfl, rfl, rfl⟩

/-- C8: the three-decimal wire rendering round-trips every rational to
within `±0.0005`; the claim's example values format as stated; and
`program_voltage` compares the original value, not the formatted one —
`40.0004` is rejected although its formatted value `40.000` would lie in the
envelope. -/
theorem claim_C8_format_roundtrip :
    (∀ v : ℚ, |round3 v - v| ≤ 1/2000)
  ∧ FORMAT (0.2468) = "0.247"
  ∧ FORMAT (8642.2468) = "8642.247"
  ∧ FORMAT (0.2) = "0.200"
  ∧ round3 (0.2468) = 0.247
  ∧ program_voltage 0 40 0 100 (40 + 1/2500)
      = Except.error
          (GenErr.valueError "Invalid Voltage, must *always* be in range")
  ∧ round3 (40 + 1/2500) = 40 := by
  refine ⟨round3_close, ?_, ?_, ?_, ?_, ?_, ?_⟩
  · rw [FORMAT_eq_of_nonneg (0.2468 : ℚ) 247
      (roundHalfEven_eq_up _ 246 (by norm_num) (by norm_num)) (by norm_num)]
    decide
  · rw [FORMAT_eq_of_nonneg (8642.2468 : ℚ) 8642247
      (roundHalfEven_eq_up _ 8642246 (by norm_num) (by norm_num))
      (by norm_num)]
    decide
  · rw [FORMAT_eq_of_nonneg (0.2 : ℚ) 200
      (roundHalfEven_eq_down _ 200 (by norm_num) (by norm_num)) (by norm_num)]
    decide
  · rw [round3, roundHalfEven_eq_up (1000 * (0.2468 : ℚ)) 246 (by norm_num)
      (by norm_num)]
    norm_num
  · rw [program_voltage, if_pos (fun hc => absurd hc.2 (by norm_num))]
  · rw [round3, roundHalfEven_eq_down (1000 * ((40 : ℚ) + 1/2500)) 40000
      (by norm_num) (by norm_num)]
    norm_num

/-- C9 counterexample: addressing device `5` writes the frame `"ADR 5\r"`,
not the zero-padded `"ADR 05\r"` the claim states. -/
theorem claim_C9_counterexample :
    (write_command_read_response "COM4" 5 "IDN?\r"
        ⟨[], [], ["OK\r", "LAMBDA,GEN40-38\r"], [], "", ""⟩).2.writes
      = ["ADR 5\r", "IDN?\r"]
  ∧ "ADR 5\r" ≠ "ADR 05\r" :=
  ⟨rfl, by decide⟩

/-- C9 amended: whenever an addressing frame is emitted, it is the ASCII
string `"ADR "` followed by the plain (unpadded) decimal digits of the
address followed by `'\r'`. -/
theorem claim_C9_frame_unpadded (st : WState) (port : String) (address : Nat)
    (command : String)
    (hneed : needs_addressing st.registry port address = true) :
    (((write_command_read_response port address command st).2.writes).drop
        st.writes.length).head?
      = some ("ADR " ++ Nat.repr address ++ "\r") := by
  by_cases hok : respHead st.reads = "OK"
  · rw [wcrr_needed_ok port address command st hneed hok]
    simp [List.drop_left, adrFrame]
  · rw [wcrr_needed_notok port address command st hneed hok]
    simp [List.drop_left, adrFrame]

/-- C9 witness: address `5` on a fresh transport. -/
theorem claim_C9_witness :
    (((write_command_read_response "COM4" 5 "IDN?\r"
        ⟨[], [], ["OK\r", "LAMBDA,GEN40-38\r"], [], "", ""⟩).2.writes).drop
        ((⟨[], [], ["OK\r", "LAMBDA,GEN40-38\r"], [], "", ""⟩ : WState)).writes.length).head?
      = some ("ADR " ++ Nat.repr 5 ++ "\r") :=
  claim_C9_frame_unpadded ⟨[], [], ["OK\r", "LAMBDA,GEN40-38\r"], [], "", ""⟩
    "COM4" 5 "IDN?\r" (by decide)

/-- C10: a group write with a valid baud rate writes exactly the command
text — no `'\r'` appended — touches neither the addressing registry nor the
reply queue, and `group_program_voltage` writes exactly
`"GPV " ++ FORMAT06 volts`. -/
theorem claim_C10_group_write (baudrate : Nat) (command : String) (volts : ℚ)
    (st : WState) (h : baudrate ∈ BAUD_RATES) :
    (group_write_command baudrate command st).1 = Except.ok ()
  ∧ (group_write_command baudrate command st).2.writes
      = st.writes ++ [command]
  ∧ (group_write_command baudrate command st).2.registry = st.registry
  ∧ (group_write_command baudrate command st).2.reads = st.reads
  ∧ (group_program_voltage baudrate volts st).2.writes
      = st.writes ++ ["GPV " ++ FORMAT06 volts]
  ∧ (group_program_voltage baudrate volts st).2.registry = st.registry
  ∧ (group_program_voltage baudrate volts st).2.reads = st.reads := by
  refine ⟨?_, ?_, ?_, ?_, ?_, ?_, ?_⟩ <;>
    simp [group_write_command, group_program_voltage, h]

/-- C10 witness: a `"GRST"` broadcast and a group voltage program at
19200 baud. -/
theorem claim_C10_witness :
    (group_write_command 19200 "GRST"
        ⟨[("COM4", 3)], [], ["OK\r"], [], "", ""⟩).1 = Except.ok ()
  ∧ (group_write_command 19200 "GRST"
        ⟨[("COM4", 3)], [], ["OK\r"], [], "", ""⟩).2.writes
      = ((⟨[("COM4", 3)], [], ["OK\r"], [], "", ""⟩ : WState)).writes
          ++ ["GRST"]
  ∧ (group_write_command 19200 "GRST"
        ⟨[("COM4", 3)], [], ["OK\r"], [], "", ""⟩).2.registry
      = ((⟨[("COM4", 3)], [], ["OK\r"], [], "", ""⟩ : WState)).registry
  ∧ (group_write_command 19200 "GRST"
        ⟨[("COM4", 3)], [], ["OK\r"], [], "", ""⟩).2.reads
      = ((⟨[("COM4", 3)], [], ["OK\r"], [], "", ""⟩ : WState)).reads
  ∧ (group_program_voltage 19200 5
        ⟨[("COM4", 3)], [], ["OK\r"], [], "", ""⟩).2.writes
      = ((⟨[("COM4", 3)], [], ["OK\r"], [], "", ""⟩ : WState)).writes
          ++ ["GPV " ++ FORMAT06 5]
  ∧ (group_program_voltage 19200 5
        ⟨[("COM4", 3)], [], ["OK\r"], [], "", ""⟩).2.registry
      = ((⟨[("COM4", 3)], [], ["OK\r"], [], "", ""⟩ : WState)).registry
  ∧ (group_program_voltage 19200 5
        ⟨[("COM4", 3)], [], ["OK\r"], [], "", ""⟩).2.reads
      = ((⟨[("COM4", 3)], [], ["OK\r"], [], "", ""⟩ : WState)).reads :=
  claim_C10_group_write 19200 "GRST" 5
    ⟨[("COM4", 3)], [], ["OK\r"], [], "", ""⟩ (by decide)

end Genesys
